import Mathlib

/-!
Verification of the hostile-drone combat AI of the mech-sim repository.

The definitions below are shallow embeddings of `src/combat/drone_manager.py`,
`src/combat/drone.py` and the constants of `src/state/constants.py`.
Conventions used throughout:

* Python floats are modelled as rationals (`ℚ`); all the arithmetic the
  claims are about is exact decimal arithmetic, faithfully represented.
* Times in milliseconds are integers (`ℤ`), counters are naturals (`ℕ`).
* Every call to `random.random()`, `random.randint`, `random.uniform` or
  `random.choice` is modelled by an explicit input (a "draw"); theorems
  quantify over all draws, hence over all behaviours of the randomized code.
* Euclidean distances produced by `math.hypot`/`math.sqrt` are irrational in
  general; where a distance enters a computation it is passed as an explicit
  value, constrained in the theorems by its defining equation
  `dist ^ 2 = dx ^ 2 + dy ^ 2`, `0 ≤ dist`.
* Side effects that do not feed back into the verified state (audio playback,
  logging, text-to-speech) are dropped; observable actions relevant to the
  claims (firing a shot, applying damage to the player, setting up a burst)
  are returned as an explicit event record.
-/

namespace MechSim

/-- The drone finite-state machine states (string-valued `drone['state']`
in the source). -/
inductive DState where
  | spawning | patrol | detecting | engaging | winding_up | attacking
  | cooldown | searching | destroyed
  deriving DecidableEq, Repr

/-- The four drone AI personalities of `DRONE_PERSONALITIES`. -/
inductive Personality where
  | rookie | veteran | ace | berserker
  deriving DecidableEq, Repr

/-- The three drone weapons of `DRONE_WEAPONS`. -/
inductive WeaponType where
  | pulse_cannon | plasma_launcher | rail_gun
  deriving DecidableEq, Repr

/-- Tactical roles assigned by `_coordinate_tactics`. -/
inductive TacticRole where
  | primary | support | flanker | crossfire
  deriving DecidableEq, Repr

/-- The three search waypoint patterns. -/
inductive SearchPattern where
  | spiral | zigzag | wander
  deriving DecidableEq, Repr

/-! Constants from `src/state/constants.py` (names kept verbatim). -/

def DRONE_DETECT_RANGE : ℚ := 25
def DRONE_LOSE_TRACK_RANGE : ℚ := 50
def DRONE_REACQUIRE_RANGE : ℚ := 35
def DRONE_ATTACK_RANGE : ℚ := 40
def DRONE_CAMO_DETECT_RANGE : ℚ := 5
def DRONE_CAMO_LOSE_TRACK_RANGE : ℚ := 15
def DRONE_CAMO_REACQUIRE_RANGE : ℚ := 10

def WOUNDED_HEALTH_THRESHOLD : ℚ := 25
def WOUNDED_EVASION_MULT : ℚ := 1.5
def WOUNDED_AGGRESSION_MULT : ℚ := 0.4

def SUPPRESSION_ENABLED : Bool := true
def SUPPRESSION_DAMAGE_THRESHOLD : ℚ := 15
def SUPPRESSION_TIME_WINDOW : ℤ := 1000
def SUPPRESSION_COOLDOWN : ℤ := 3000

def DISTRESS_BEACON_ENABLED : Bool := true
def DISTRESS_DAMAGE_THRESHOLD : ℚ := 40
def DISTRESS_HEALTH_THRESHOLD : ℚ := 30
def DISTRESS_BEACON_DURATION : ℤ := 3000

def FALSE_START_CHANCE : ℚ := 0.10
def COOLDOWN_REASSESS_CHANCE : ℚ := 0.15
def COOLDOWN_PEEK_INTERVAL : ℤ := 300

def DRONE_ATTACK_WINDUP_ENABLED : Bool := true
def DRONE_ATTACK_STATE_DURATION : ℤ := 200

def SEARCH_EXPAND_ENABLED : Bool := true
def SEARCH_EXPAND_INTERVAL : ℤ := 2000
def SEARCH_EXPAND_MULTIPLIER : ℚ := 1.3
def SEARCH_EXPAND_MAX_MULT : ℚ := 3.0

def ATTACK_FRUSTRATION_THRESHOLD : ℚ := 0.2
def ATTACK_BREAK_OFF_CHANCE : ℚ := 0.5
def ATTACK_MIN_SHOTS_BEFORE_ADAPT : ℕ := 4
def ATTACK_ADAPTATION_ENABLED : Bool := true
def ATTACK_WEAPON_SWITCH_THRESHOLD : ℚ := 0.15

/-- Per-weapon stats record of the `DRONE_WEAPONS` table. -/
structure WeaponStats where
  damage : ℚ
  range : ℚ
  accuracy : ℚ
  shots_min : ℕ
  shots_max : ℕ
  interval_min : ℤ
  interval_max : ℤ
  deriving DecidableEq, Repr

/-- The `DRONE_WEAPONS` table of `src/state/constants.py`. -/
def DRONE_WEAPONS : WeaponType → WeaponStats
  | .pulse_cannon => ⟨2, 20, 0.80, 4, 10, 70, 120⟩
  | .plasma_launcher => ⟨4, 30, 0.75, 6, 12, 40, 80⟩
  | .rail_gun => ⟨8, 45, 0.70, 4, 8, 100, 160⟩

/-- Per-personality profile record of the `DRONE_PERSONALITIES` table. -/
structure PersonalityData where
  speed_mult : ℚ
  accuracy_mult : ℚ
  aggression : ℚ
  evasion_skill : ℚ
  hesitation_chance : ℚ
  deriving DecidableEq, Repr

/-- The `DRONE_PERSONALITIES` table of `src/state/constants.py`. -/
def DRONE_PERSONALITIES : Personality → PersonalityData
  | .rookie => ⟨0.8, 0.7, 0.3, 0.6, 0.25⟩
  | .veteran => ⟨1.0, 1.0, 0.5, 1.0, 0.10⟩
  | .ace => ⟨1.2, 1.2, 0.7, 1.3, 0.05⟩
  | .berserker => ⟨1.3, 0.8, 0.9, 0.5, 0.0⟩

/-- The `PERSONALITY_WEAPON_PREFS` table: the valid (min, max) firing
distance band of a weapon for a personality. -/
def PERSONALITY_WEAPON_PREFS : Personality → WeaponType → ℚ × ℚ
  | .rookie, .pulse_cannon => (0, 18)
  | .rookie, .plasma_launcher => (15, 28)
  | .rookie, .rail_gun => (25, 40)
  | .veteran, .pulse_cannon => (0, 15)
  | .veteran, .plasma_launcher => (12, 32)
  | .veteran, .rail_gun => (28, 45)
  | .ace, .pulse_cannon => (0, 12)
  | .ace, .plasma_launcher => (10, 30)
  | .ace, .rail_gun => (25, 50)
  | .berserker, .pulse_cannon => (0, 10)
  | .berserker, .plasma_launcher => (8, 35)
  | .berserker, .rail_gun => (30, 50)

/-- `distance` lies in the personality's configured band for `w`. -/
def in_weapon_band (p : Personality) (w : WeaponType) (distance : ℚ) : Prop :=
  (PERSONALITY_WEAPON_PREFS p w).1 ≤ distance ∧
    distance ≤ (PERSONALITY_WEAPON_PREFS p w).2

instance (p : Personality) (w : WeaponType) (d : ℚ) :
    Decidable (in_weapon_band p w d) := by
  unfold in_weapon_band; infer_instance

/-! The hit-chance computation of `DroneManager._execute_attack`
(src/combat/drone_manager.py lines 1539-1547). -/

/-- Burst hit chance: `weapon.accuracy * accuracy_mult - distance_factor*0.2`,
minus an altitude penalty `min(0.3, |alt_diff|/150)` when `|alt_diff| > 20`,
floored at `0.2` by `max`. -/
def attack_hit_chance (weapon : WeaponStats)
    (accuracy_mult distance altitude_diff : ℚ) : ℚ :=
  let distance_factor := distance / weapon.range
  let hc := weapon.accuracy * accuracy_mult - distance_factor * 0.2
  let alt := |altitude_diff|
  let hc2 := if alt > 20 then hc - min 0.3 (alt / 150) else hc
  max 0.2 hc2

/-! Detection ranges used by `DroneManager._update_drone_state`
(src/combat/drone_manager.py lines 651-653). -/

/-- `detect_range = DRONE_CAMO_DETECT_RANGE if camo_effective else DRONE_DETECT_RANGE`. -/
def detect_range (camo_effective : Bool) : ℚ :=
  if camo_effective then DRONE_CAMO_DETECT_RANGE else DRONE_DETECT_RANGE

/-- `lose_track_range` selection of lines 651-653. -/
def lose_track_range (camo_effective : Bool) : ℚ :=
  if camo_effective then DRONE_CAMO_LOSE_TRACK_RANGE else DRONE_LOSE_TRACK_RANGE

/-- `reacquire_range` selection of lines 651-653. -/
def reacquire_range (camo_effective : Bool) : ℚ :=
  if camo_effective then DRONE_CAMO_REACQUIRE_RANGE else DRONE_REACQUIRE_RANGE

/-! Weapon selection: `DroneManager._select_weapon`
(src/combat/drone_manager.py lines 1676-1737). -/

/-- `random.choice(l)` modelled by an index draw `c` (any element can be
drawn; theorems quantify over `c`). -/
def rchoice (l : List α) (c : ℕ) : Option α := l.get? (c % l.length)

/-- Iteration order of the weapon-preference dict (Python dicts preserve
insertion order). -/
def weapons_order : List WeaponType :=
  [.pulse_cannon, .plasma_launcher, .rail_gun]

/-- The distance actually used by `_select_weapon`: blended 70/30 with the
learned `preferred_range` when attack adaptation has set one (`drone.get`
truthiness: `None` and `0` both skip the blend). -/
def adjusted_distance (distance : ℚ) (preferred_range : Option ℚ) : ℚ :=
  if ATTACK_ADAPTATION_ENABLED then
    match preferred_range with
    | some r => if r = 0 then distance else distance * 0.7 + r * 0.3
    | none => distance
  else distance

/-- The `valid_weapons` list built by `_select_weapon`: weapons whose
personality band contains `distance`. -/
def valid_weapons (p : Personality) (distance : ℚ) : List WeaponType :=
  weapons_order.filter fun w => decide (in_weapon_band p w distance)

/-- `DroneManager._select_weapon`.  `r` is the draw for the single
`random.random()` call an execution path can make, `c` the draw for the
single `random.choice` call. -/
def select_weapon (p : Personality) (distance0 : ℚ) (is_wounded : Bool)
    (preferred_range : Option ℚ) (r : ℚ) (c : ℕ) : Option WeaponType :=
  let distance := adjusted_distance distance0 preferred_range
  let valid := valid_weapons p distance
  if valid ≠ [] then
    if is_wounded = true ∧ WeaponType.pulse_cannon ∈ valid then
      some .pulse_cannon
    else
      match p with
      | .berserker =>
          if WeaponType.rail_gun ∈ valid then
            if r < 0.6 then some .rail_gun else rchoice valid c
          else if WeaponType.plasma_launcher ∈ valid then
            if r < 0.7 then some .plasma_launcher else rchoice valid c
          else rchoice valid c
      | .ace =>
          if distance ≤ 12 ∧ WeaponType.pulse_cannon ∈ valid then
            some .pulse_cannon
          else if distance ≤ 30 ∧ WeaponType.plasma_launcher ∈ valid then
            some .plasma_launcher
          else if WeaponType.rail_gun ∈ valid then some .rail_gun
          else rchoice valid c
      | .rookie =>
          if WeaponType.pulse_cannon ∈ valid then
            if r < 0.7 then some .pulse_cannon else rchoice valid c
          else rchoice valid c
      | .veteran => rchoice valid c
  else
    if distance ≤ 15 then
      rchoice [.pulse_cannon, .pulse_cannon, .plasma_launcher] c
    else if distance ≤ 25 then
      rchoice [.pulse_cannon, .plasma_launcher, .plasma_launcher] c
    else if distance ≤ 35 then
      rchoice [.plasma_launcher, .plasma_launcher, .rail_gun] c
    else if distance ≤ 45 then
      rchoice [.rail_gun, .rail_gun, .plasma_launcher] c
    else none

/-! Movement: `DroneManager._move_drone_toward`
(src/combat/drone_manager.py lines 1064-1080); `Drone.move_toward`
(src/combat/drone.py lines 120-144) is the identical algorithm on the
`Drone` class.  The Euclidean distance `dist = hypot(dx, dy)` is passed
explicitly (see the file header); theorems constrain it by its defining
equation. -/

/-- Result of a `_move_drone_toward` call: new position and the returned
"reached" boolean. -/
structure MoveResult where
  x : ℚ
  y : ℚ
  reached : Bool
  deriving DecidableEq, Repr

/-- `_move_drone_toward` / `Drone.move_toward`: return `True` and leave the
position unchanged when `dist < 0.5`, otherwise step `min(speed*dt, dist)`
along the unit vector toward the target. -/
def move_toward (x y tx ty dist speed dt : ℚ) : MoveResult :=
  let dx := tx - x
  let dy := ty - y
  if dist < 0.5 then ⟨x, y, true⟩
  else
    let move_dist := speed * dt
    let move_dist := if move_dist > dist then dist else move_dist
    ⟨x + dx / dist * move_dist, y + dy / dist * move_dist, false⟩

/-! Expanding search radius (the `searching` branch of
`_update_drone_state`, src/combat/drone_manager.py lines 796-810). -/

/-- The multiplier `1.0 + count * (SEARCH_EXPAND_MULTIPLIER - 1.0)` used both
in the pre-expansion check and (with the incremented count) as `expand_mult`
for the regenerated waypoints. -/
def search_expand_mult (count : ℕ) : ℚ :=
  1.0 + (count : ℚ) * (SEARCH_EXPAND_MULTIPLIER - 1.0)

/-- One expansion event of the searching branch: when the current multiplier
is still below `SEARCH_EXPAND_MAX_MULT`, increment `search_expand_count` and
regenerate waypoints with the new multiplier (returned as `some mult`);
otherwise change nothing. -/
def search_expand_step (count : ℕ) : ℕ × Option ℚ :=
  if search_expand_mult count < SEARCH_EXPAND_MAX_MULT then
    (count + 1, some (search_expand_mult (count + 1)))
  else (count, none)

/-! The drone record.  The source stores each drone as one dict created in
`DroneManager._spawn_drone` (lines 261-415); the fields modelled here are
the ones read or written by the functions embedded in this file.  Spatial
coordinates (`x`, `y`, `altitude`, velocities) and pure audio bookkeeping
are not fields of this record: the state machine consumes the coordinates
only through the per-tick derived `distance`/`altitude_diff` (recomputed by
`_update_spatial_audio` before each tick and treated as inputs here) and
through the boolean results of the movement helpers (supplied as draws). -/

/-- One recorded burst outcome appended to `weapon_history` by
`_log_attack_results`. -/
structure BurstOutcome where
  weapon : WeaponType
  hit_rate : ℚ
  distance : ℚ
  hits : ℕ
  shots : ℕ
  deriving DecidableEq, Repr

/-- The drone entity (the dict built by `_spawn_drone`). -/
structure Drone where
  id : ℕ
  state : DState
  state_start : ℤ
  state_duration : Option ℤ
  distance : ℚ
  altitude_diff : ℚ
  health : ℚ
  is_wounded : Bool
  evasion_skill : ℚ
  aggression : ℚ
  accuracy_mult : ℚ
  hesitation_chance : ℚ
  hesitating : Bool
  had_false_start : Bool
  personality : Personality
  is_suppressed : Bool
  suppression_end_time : ℤ
  suppression_cooldown_end : ℤ
  recent_damage : ℚ
  damage_window_start : ℤ
  distress_active : Bool
  distress_start_time : ℤ
  hold_fire_until : ℤ
  tactic_role : Option TacticRole
  patrol_target : ℚ × ℚ
  last_known_x : ℚ
  last_known_y : ℚ
  preferred_range : Option ℚ
  attack_weapon : Option WeaponType
  shots_to_fire : ℕ
  shots_fired : ℕ
  hits_this_burst : ℕ
  hit_chance : ℚ
  last_shot_time : ℤ
  next_shot_interval : ℤ
  interval_min : ℤ
  interval_max : ℤ
  attack_frustrated : Bool
  weapon_history : List BurstOutcome
  cooldown_duration : Option ℤ
  last_peek_time : Option ℤ
  last_attack_x : Option ℚ
  last_attack_y : Option ℚ
  search_pattern : Option SearchPattern
  search_waypoints : List (ℚ × ℚ)
  search_waypoint_index : ℕ
  search_expand_count : ℕ
  last_search_expand : ℤ

/-- Read-only per-tick environment: `current_time` (ms), camo effectiveness,
the player position cached at frame start, and `game_state.game_over`. -/
structure Env where
  now : ℤ
  camo_effective : Bool
  player_x : ℚ
  player_y : ℚ
  game_over : Bool
  deriving DecidableEq, Repr

/-- Observable actions of one `_update_drone_state` tick that the claims are
about.  `fired_shot`/`player_damage` come from `_update_attack_firing`
(`damage_system.apply_damage` is called exactly when `player_damage ≠ 0`);
`executed_attack` marks an `_execute_attack` call (burst set-up only, it
applies no damage); `moved_evasively` marks the suppressed early return
that only runs `_move_engaging`. -/
structure TickEvents where
  fired_shot : Bool := false
  player_damage : ℚ := 0
  executed_attack : Bool := false
  moved_evasively : Bool := false
  deriving DecidableEq, Repr

/-- One tick's random draws and oracle inputs (see the file header).
`move_reached` is the boolean result of the `_move_drone_toward` call a
branch makes; `coord_hold_fire`/`coord_role` are the assignments
`_coordinate_tactics` may make to this drone; `player_moved` is the
`math.hypot` player displacement computed during cooldown reassessment. -/
structure TickDraws where
  spawn_duration : ℤ
  detect_duration : ℤ
  hesitation_roll : ℚ
  hesitation_extra : ℤ
  false_start_roll : ℚ
  patrol_point : ℚ × ℚ
  windup_duration : ℤ
  search_timeout : ℤ
  search_pattern_choice : SearchPattern
  search_waypoints_draw : List (ℚ × ℚ)
  search_waypoints_expanded : List (ℚ × ℚ)
  move_reached : Bool
  coord_hold_fire : Option ℤ
  coord_role : Option TacticRole
  cooldown_duration_draw : ℤ
  reassess_roll : ℚ
  player_moved : ℚ
  sel_weapon_float : ℚ
  sel_weapon_choice : ℕ
  num_shots : ℕ
  first_interval : ℤ
  hit_roll : ℚ
  break_roll : ℚ
  next_interval : ℤ

/-- The wounded-state check at the top of `_update_drone_state`
(lines 655-663): on first crossing the threshold, latch `is_wounded` and
scale `evasion_skill` and `aggression` once. -/
def wounded_check (d : Drone) : Drone :=
  let health_percent := d.health / 100.0 * 100
  if health_percent ≤ WOUNDED_HEALTH_THRESHOLD ∧ d.is_wounded = false then
    { d with is_wounded := true,
             evasion_skill := d.evasion_skill * WOUNDED_EVASION_MULT,
             aggression := d.aggression * WOUNDED_AGGRESSION_MULT }
  else d

/-- `DroneManager._execute_attack` (lines 1511-1549): select a weapon and
initialize the rapid-fire burst state; the `random.randint` results
(`num_shots`, the first shot interval) are draws.  The early-outs (game
over, `_select_weapon` returning `None`) leave the drone unchanged, as in
the source. -/
def execute_attack (d : Drone) (env : Env) (dr : TickDraws) : Drone :=
  if env.game_over then d
  else
    match select_weapon d.personality d.distance d.is_wounded d.preferred_range
        dr.sel_weapon_float dr.sel_weapon_choice with
    | none => d
    | some weapon_type =>
      let weapon := DRONE_WEAPONS weapon_type
      { d with
        attack_weapon := some weapon_type,
        shots_to_fire := dr.num_shots,
        shots_fired := 0,
        last_shot_time := 0,
        hits_this_burst := 0,
        interval_min := weapon.interval_min,
        interval_max := weapon.interval_max,
        next_shot_interval := dr.first_interval,
        hit_chance := attack_hit_chance weapon d.accuracy_mult d.distance d.altitude_diff }

/-- `DroneManager._log_attack_results` (lines 1620-1674): append the burst
outcome to the bounded rolling `weapon_history`, learn `preferred_range`
as the average distance of recent bursts with hit rate ≥ 0.3, and reset
`hits_this_burst`.  (The `_avoid_weapon`/`_effective_weapon` markers are
written but read nowhere in the source and are not modelled.) -/
def log_attack_results (d : Drone) (env : Env) (weapon_type : WeaponType) : Drone :=
  if env.game_over then d
  else
    let shots_fired := d.shots_fired
    let hits := d.hits_this_burst
    let d :=
      if ATTACK_ADAPTATION_ENABLED then
        let hit_rate : ℚ := if shots_fired > 0 then (hits : ℚ) / (shots_fired : ℚ) else 0
        let history := d.weapon_history ++
          [⟨weapon_type, hit_rate, d.distance, hits, shots_fired⟩]
        let history :=
          if history.length > 5 then history.drop (history.length - 5) else history
        let successful : List BurstOutcome := history.filter fun a => decide (a.hit_rate ≥ 0.3)
        let preferred :=
          if successful ≠ [] then
            some ((successful.map fun a => a.distance).sum / (successful.length : ℚ))
          else d.preferred_range
        { d with weapon_history := history, preferred_range := preferred }
      else d
    { d with hits_this_burst := 0 }

/-- The fire events of one `_update_attack_firing` call. -/
structure FireEvents where
  fired : Bool := false
  damage : ℚ := 0
  deriving DecidableEq, Repr

/-- `DroneManager._update_attack_firing` (lines 1551-1618): when a shot is
due, fire it, roll it against the stored `hit_chance` (a hit applies the
weapon damage through the damage system), and run the frustration /
break-off adaptation check; log the burst when its shot budget completes
or it is broken off. -/
def update_attack_firing (d : Drone) (env : Env) (dr : TickDraws) :
    Drone × FireEvents :=
  if env.game_over then (d, {})
  else
    let shots_to_fire := d.shots_to_fire
    let shots_fired := d.shots_fired
    if shots_fired < shots_to_fire ∧ env.now - d.last_shot_time ≥ d.next_shot_interval then
      let weapon_type := d.attack_weapon.getD .pulse_cannon
      let weapon := DRONE_WEAPONS weapon_type
      let hit := dr.hit_roll < d.hit_chance
      let d := if hit then { d with hits_this_burst := d.hits_this_burst + 1 } else d
      let ev : FireEvents := { fired := true, damage := if hit then weapon.damage else 0 }
      let d := { d with shots_fired := shots_fired + 1, last_shot_time := env.now,
                        next_shot_interval := dr.next_interval }
      let new_shots_fired := d.shots_fired
      if new_shots_fired ≥ ATTACK_MIN_SHOTS_BEFORE_ADAPT then
        let hit_rate : ℚ :=
          if new_shots_fired > 0 then (d.hits_this_burst : ℚ) / (new_shots_fired : ℚ) else 0
        if hit_rate < ATTACK_FRUSTRATION_THRESHOLD then
          let d := { d with attack_frustrated := true }
          if dr.break_roll < ATTACK_BREAK_OFF_CHANCE then
            let d := { d with shots_to_fire := new_shots_fired }
            (log_attack_results d env weapon_type, ev)
          else if new_shots_fired ≥ shots_to_fire then
            (log_attack_results d env weapon_type, ev)
          else (d, ev)
        else if new_shots_fired ≥ shots_to_fire then
          (log_attack_results d env weapon_type, ev)
        else (d, ev)
      else if new_shots_fired ≥ shots_to_fire then
        (log_attack_results d env weapon_type, ev)
      else (d, ev)
    else (d, {})

/-- Random draws of one `damage_drone` call. -/
structure DamageDraws where
  suppression_duration : ℤ
  deriving Repr

/-- `DroneManager.damage_drone` (lines 1771-1888), restricted to the drone
state it mutates: the health decrement, destruction on `health ≤ 0`, the
distress-beacon trigger and the suppression trigger.  Hit-confirmation
audio and the alerting of *other* drones by `_activate_distress_beacon`
are side effects outside this per-drone record.  `now` is the
`pygame.time.get_ticks()` result of `_get_current_time`.  Returns the
updated drone and the `True if destroyed` result. -/
def damage_drone (d : Drone) (damage : ℚ) (now : ℤ) (dr : DamageDraws) :
    Drone × Bool :=
  let d := { d with health := d.health - damage }
  let is_kill := d.health ≤ 0
  if is_kill then
    ({ d with state := .destroyed }, true)
  else
    let d :=
      if DISTRESS_BEACON_ENABLED then
        let health_percent := d.health / 100.0 * 100
        if (damage ≥ DISTRESS_DAMAGE_THRESHOLD ∨
            health_percent ≤ DISTRESS_HEALTH_THRESHOLD) ∧ d.distress_active = false then
          { d with distress_active := true, distress_start_time := now }
        else d
      else d
    let d :=
      if SUPPRESSION_ENABLED then
        let d :=
          if now - d.damage_window_start > SUPPRESSION_TIME_WINDOW then
            { d with damage_window_start := now, recent_damage := 0 }
          else d
        let d := { d with recent_damage := d.recent_damage + damage }
        if d.recent_damage ≥ SUPPRESSION_DAMAGE_THRESHOLD ∧ d.is_suppressed = false
            ∧ now ≥ d.suppression_cooldown_end then
          { d with is_suppressed := true,
                   suppression_end_time := now + dr.suppression_duration }
        else d
      else d
    (d, false)

/-! Drone removal in `DroneManager.update` (lines 219-254) and id assignment
in `DroneManager._spawn_drone` (lines 261-294). -/

/-- The audio-silence test `update` applies to a destroyed drone: with a
pool, `pool.is_drone_silent(id)`; otherwise the fallback requires the
channel dict to exist and both the `combat` and `ambient` channels to be
idle. -/
def drone_silent (has_pool : Bool) (pool_silent : ℕ → Bool)
    (has_channels combat_busy ambient_busy : ℕ → Bool) (id : ℕ) : Bool :=
  if has_pool then pool_silent id
  else has_channels id && !(combat_busy id) && !(ambient_busy id)

/-- The removal pass of `update`: drones collected into `drones_to_remove`
(state `destroyed` and silent) are removed after the update loop; the
remaining collection keeps its order. -/
def remove_resolved (drones : List Drone) (silent : ℕ → Bool) : List Drone :=
  drones.filter fun d => !(d.state == DState.destroyed && silent d.id)

/-- `DroneManager._spawn_drone` id assignment (line 294 and the
`len(self.drones) >= self.max_drones` guard of lines 270-271): the new
drone's id is the *current length* of `self.drones` and the drone is
appended in state `spawning`.  `mk` supplies the other (randomized) fields
of the freshly built dict; id and state are overridden as in the source. -/
def spawn_drone (max_drones : ℕ) (drones : List Drone) (mk : ℕ → Drone) :
    List Drone :=
  if drones.length ≥ max_drones then drones
  else drones ++ [{ mk drones.length with id := drones.length, state := .spawning }]

/-- Manager-level happenings that add or remove collection entries:
a spawn, the destruction of the drone with a given id (`damage_drone`
reaching `health ≤ 0`), and a removal pass over destroyed+silent drones. -/
inductive ManagerOp where
  | spawn
  | destroy (id : ℕ)
  | remove
  deriving Repr

/-- Run a sequence of manager operations over the drone collection. -/
def run_manager (max_drones : ℕ) (mk : ℕ → Drone) (silent : ℕ → Bool) :
    List ManagerOp → List Drone → List Drone
  | [], ds => ds
  | .spawn :: ops, ds =>
      run_manager max_drones mk silent ops (spawn_drone max_drones ds mk)
  | .destroy i :: ops, ds =>
      run_manager max_drones mk silent ops
        (ds.map fun d => if d.id = i then { d with state := .destroyed } else d)
  | .remove :: ops, ds =>
      run_manager max_drones mk silent ops (remove_resolved ds silent)

/-! The per-state branches of `_update_drone_state` (lines 681-913). -/

/-- The `spawning` branch (lines 683-691). -/
def tick_spawning (d : Drone) (env : Env) (dr : TickDraws) : Drone :=
  let d :=
    if d.state_duration = none then { d with state_duration := some dr.spawn_duration }
    else d
  if env.now - d.state_start ≥ d.state_duration.getD 0 then
    { d with state := .patrol, patrol_target := dr.patrol_point,
             state_start := env.now, state_duration := none }
  else d

/-- The `patrol` branch (lines 693-703): the `_move_drone_toward` result is
the `move_reached` draw; on reaching the patrol point a new one is drawn. -/
def tick_patrol (d : Drone) (env : Env) (dr : TickDraws) : Drone :=
  let d := if dr.move_reached then { d with patrol_target := dr.patrol_point } else d
  if d.distance ≤ detect_range env.camo_effective then
    { d with state := .detecting, state_start := env.now,
             last_known_x := env.player_x, last_known_y := env.player_y }
  else d

/-- The `detecting` branch (lines 705-730): randomized duration with an
optional hesitation delay, then either a one-shot false start back to
patrol or the transition to engaging. -/
def tick_detecting (d : Drone) (env : Env) (dr : TickDraws) : Drone :=
  let d := { d with last_known_x := env.player_x, last_known_y := env.player_y }
  let d :=
    if d.state_duration = none then
      if dr.hesitation_roll < d.hesitation_chance then
        { d with state_duration := some (dr.detect_duration + dr.hesitation_extra),
                 hesitating := true }
      else { d with state_duration := some dr.detect_duration }
    else d
  if env.now - d.state_start ≥ d.state_duration.getD 0 then
    if dr.false_start_roll < FALSE_START_CHANCE ∧ d.had_false_start = false then
      { d with state := .patrol, patrol_target := dr.patrol_point,
               state_start := env.now, had_false_start := true,
               state_duration := none, hesitating := false }
    else
      { d with state := .engaging, state_start := env.now, state_duration := none,
               hesitating := false, had_false_start := false }
  else d

/-- The `engaging` branch (lines 732-764): coordination (oracle draws),
movement (position-only), then lose-track / attack-range transitions.
With `DRONE_ATTACK_WINDUP_ENABLED` the wind-up is entered and
`_play_attack_windup` pre-selects `attack_weapon` (lines 1419-1420);
otherwise `_execute_attack` runs directly. -/
def tick_engaging (d : Drone) (env : Env) (dr : TickDraws) : Drone × TickEvents :=
  let d := { d with
    hold_fire_until := dr.coord_hold_fire.getD d.hold_fire_until,
    tactic_role := match dr.coord_role with | some r => some r | none => d.tactic_role }
  let d := { d with last_known_x := env.player_x, last_known_y := env.player_y }
  if d.distance > lose_track_range env.camo_effective then
    ({ d with state := .searching, state_start := env.now }, {})
  else if d.distance ≤ DRONE_ATTACK_RANGE then
    if env.now < d.hold_fire_until then (d, {})
    else if DRONE_ATTACK_WINDUP_ENABLED then
      ({ d with state := .winding_up, state_start := env.now,
                attack_weapon := select_weapon d.personality d.distance d.is_wounded
                  d.preferred_range dr.sel_weapon_float dr.sel_weapon_choice }, {})
    else
      let d := { d with state := .attacking, state_start := env.now }
      (execute_attack d env dr, { executed_attack := true })
  else (d, {})

/-- The `winding_up` branch (lines 766-780): randomized telegraph duration,
then the transition to `attacking` runs `_execute_attack`; the drone keeps
tracking the player either way. -/
def tick_winding_up (d : Drone) (env : Env) (dr : TickDraws) : Drone × TickEvents :=
  let d :=
    if d.state_duration = none then { d with state_duration := some dr.windup_duration }
    else d
  let res :=
    if env.now - d.state_start ≥ d.state_duration.getD 0 then
      let d := { d with state := .attacking, state_start := env.now, state_duration := none }
      (execute_attack d env dr, { executed_attack := true : TickEvents })
    else (d, {})
  ({ res.1 with last_known_x := env.player_x, last_known_y := env.player_y }, res.2)

/-- Lazy search pattern/waypoint initialization of the `searching` branch
(lines 784-794). -/
def search_init (d : Drone) (env : Env) (dr : TickDraws) : Drone :=
  if d.search_pattern = none then
    { d with search_pattern := some dr.search_pattern_choice,
             search_waypoints := dr.search_waypoints_draw,
             search_waypoint_index := 0,
             search_expand_count := 0,
             last_search_expand := env.now }
  else d

/-- The periodic radius expansion of the `searching` branch (lines
796-810), through `search_expand_step`. -/
def search_expand_phase (d : Drone) (env : Env) (dr : TickDraws) : Drone :=
  if SEARCH_EXPAND_ENABLED then
    if env.now - d.last_search_expand ≥ SEARCH_EXPAND_INTERVAL then
      let d := { d with last_search_expand := env.now }
      let step := search_expand_step d.search_expand_count
      match step.2 with
      | some _ =>
          { d with search_expand_count := step.1,
                   search_waypoints := dr.search_waypoints_expanded,
                   search_waypoint_index := 0 }
      | none => d
    else d
  else d

/-- Waypoint pursuit of the `searching` branch (lines 812-825): on
reaching the current waypoint, advance the index. -/
def search_waypoint_phase (d : Drone) (reached : Bool) : Drone :=
  if d.search_waypoints ≠ [] ∧
      d.search_waypoint_index < d.search_waypoints.length then
    if reached then { d with search_waypoint_index := d.search_waypoint_index + 1 }
    else d
  else d

/-- Lazy randomized state-duration initialization (the
`if 'state_duration' not in drone` pattern of the source). -/
def ensure_state_duration (d : Drone) (dur : ℤ) : Drone :=
  if d.state_duration = none then { d with state_duration := some dur } else d

/-- The `searching` branch (lines 782-849): lazy pattern/waypoint
initialization, the periodic radius expansion, waypoint pursuit (the
`_move_drone_toward` result being the `move_reached` draw, for the
waypoint and fallback movements alike), then reacquire or timeout. -/
def tick_searching (d : Drone) (env : Env) (dr : TickDraws) : Drone :=
  let d := search_init d env dr
  let d := search_expand_phase d env dr
  let reached := dr.move_reached
  let d := search_waypoint_phase d reached
  let d := ensure_state_duration d dr.search_timeout
  if d.distance ≤ reacquire_range env.camo_effective then
    { d with state := .detecting, state_start := env.now,
             last_known_x := env.player_x, last_known_y := env.player_y,
             state_duration := none, search_pattern := none, search_waypoints := [] }
  else if reached = true ∨ env.now - d.state_start ≥ d.state_duration.getD 0 then
    { d with state := .patrol, patrol_target := dr.patrol_point, state_start := env.now,
             state_duration := none, search_pattern := none, search_waypoints := [] }
  else d

/-- The `attacking` branch (lines 851-865): fire shots continuously through
`_update_attack_firing`, and after `DRONE_ATTACK_STATE_DURATION` enter
cooldown, storing the player position and clearing the shot counters. -/
def tick_attacking (d : Drone) (env : Env) (dr : TickDraws) : Drone × TickEvents :=
  let res := update_attack_firing d env dr
  let d := res.1
  let d :=
    if env.now - d.state_start ≥ DRONE_ATTACK_STATE_DURATION then
      { d with state := .cooldown, state_start := env.now,
               cooldown_duration := some dr.cooldown_duration_draw,
               last_attack_x := some env.player_x, last_attack_y := some env.player_y,
               shots_fired := 0, last_shot_time := 0 }
    else d
  (d, { fired_shot := res.2.fired, player_damage := res.2.damage })

/-- The periodic reassessment "peek" of the `cooldown` branch (lines
870-903): early re-engage when the player is very close or has moved,
extended cooldown when far.  The boolean is the source's early `return`. -/
def cooldown_peek (d : Drone) (env : Env) (dr : TickDraws)
    (cooldown_duration : ℤ) : Drone × Bool :=
  if env.now - (d.last_peek_time.getD d.state_start) ≥ COOLDOWN_PEEK_INTERVAL then
    let d := { d with last_peek_time := some env.now }
    if dr.reassess_roll < COOLDOWN_REASSESS_CHANCE * (1 + d.aggression) then
      if d.distance < 10 then
        ({ d with cooldown_duration := some (min cooldown_duration 200),
                  state := .engaging, state_start := env.now }, true)
      else if dr.player_moved > 10 then
        ({ d with state := .engaging, last_known_x := env.player_x,
                  last_known_y := env.player_y, state_start := env.now }, true)
      else if d.distance > 40 then
        ({ d with cooldown_duration := some (cooldown_duration + 500) }, false)
      else (d, false)
    else (d, false)
  else (d, false)

/-- The `cooldown` branch (lines 867-913): the reassessment peek, then the
normal timeout into engaging or searching.  The timeout comparison uses
the *local* `cooldown_duration` read at the top of the branch, exactly as
the source does (the peek may have written a different value into the
drone). -/
def tick_cooldown (d : Drone) (env : Env) (dr : TickDraws) : Drone :=
  let cooldown_duration := d.cooldown_duration.getD 300
  let res := cooldown_peek d env dr cooldown_duration
  let d := res.1
  if res.2 then d
  else if env.now - d.state_start ≥ cooldown_duration then
    let d :=
      if d.distance ≤ lose_track_range env.camo_effective then
        { d with state := .engaging, last_known_x := env.player_x,
                 last_known_y := env.player_y }
      else { d with state := .searching }
    { d with state_start := env.now, last_peek_time := none }
  else d

/-- The distress-beacon timeout check of `_update_drone_state`
(lines 676-679). -/
def distress_check (d : Drone) (env : Env) : Drone :=
  if d.distress_active = true ∧
      env.now - d.distress_start_time ≥ DISTRESS_BEACON_DURATION then
    { d with distress_active := false }
  else d

/-- The per-state branch dispatch of `_update_drone_state` (lines 681-913).
`update` never calls the state machine for a destroyed drone (line 221
`continue`), so the `destroyed` case is the identity. -/
def state_branch (d : Drone) (env : Env) (dr : TickDraws) : Drone × TickEvents :=
  match d.state with
  | .spawning => (tick_spawning d env dr, {})
  | .patrol => (tick_patrol d env dr, {})
  | .detecting => (tick_detecting d env dr, {})
  | .engaging => tick_engaging d env dr
  | .winding_up => tick_winding_up d env dr
  | .searching => (tick_searching d env dr, {})
  | .attacking => tick_attacking d env dr
  | .cooldown => (tick_cooldown d env dr, {})
  | .destroyed => (d, {})

/-- `DroneManager._update_drone_state` (lines 642-913): the wounded check,
the suppression gate (clear on expiry and start the cooldown; while still
suppressed, the engaging/winding_up/attacking branches are replaced by
evasive movement and an early return), the distress-beacon timeout, then
the per-state branch. -/
def update_drone_state (d : Drone) (env : Env) (dr : TickDraws) :
    Drone × TickEvents :=
  let d := wounded_check d
  let gate : Drone ⊕ (Drone × TickEvents) :=
    if SUPPRESSION_ENABLED ∧ d.is_suppressed = true then
      if env.now ≥ d.suppression_end_time then
        Sum.inl { d with is_suppressed := false,
                         suppression_cooldown_end := env.now + SUPPRESSION_COOLDOWN }
      else if d.state = .engaging ∨ d.state = .winding_up ∨ d.state = .attacking then
        Sum.inr (d, { moved_evasively := true })
      else Sum.inl d
    else Sum.inl d
  match gate with
  | Sum.inr res => res
  | Sum.inl d => state_branch (distress_check d env) env dr

/-- Repeated wounded-check ticks: before each tick the drone's health takes
the next value of the list (between state-machine ticks the health only
changes through `damage_drone`). -/
def wounded_run (d : Drone) (healths : List ℚ) : Drone :=
  healths.foldl (fun dd h => wounded_check { dd with health := h }) d

/-- The burst bookkeeping invariant of C4: the shot counters are consistent
and every recorded outcome has hits ≤ shots. -/
def burst_inv (d : Drone) : Prop :=
  d.shots_fired ≤ d.shots_to_fire ∧
  d.hits_this_burst ≤ d.shots_fired ∧
  ∀ o ∈ d.weapon_history, o.hits ≤ o.shots

/-- One burst: the `_execute_attack` set-up followed by any sequence of
`_update_attack_firing` ticks (each with its own time and draws). -/
def burst_run (d : Drone) (env : Env) (dr : TickDraws)
    (ticks : List (Env × TickDraws)) : Drone :=
  ticks.foldl (fun dd t => (update_attack_firing dd t.1 t.2).1)
    (execute_attack d env dr)

/-! Concrete sample values used by witnesses and counterexamples. -/

/-- A concrete drone record (the values are arbitrary but fixed). -/
def sample_drone : Drone where
  id := 0
  state := .spawning
  state_start := 0
  state_duration := none
  distance := 0
  altitude_diff := 0
  health := 100
  is_wounded := false
  evasion_skill := 1
  aggression := 0.5
  accuracy_mult := 1
  hesitation_chance := 0.1
  hesitating := false
  had_false_start := false
  personality := .veteran
  is_suppressed := false
  suppression_end_time := 0
  suppression_cooldown_end := 0
  recent_damage := 0
  damage_window_start := 0
  distress_active := false
  distress_start_time := 0
  hold_fire_until := 0
  tactic_role := none
  patrol_target := (0, 0)
  last_known_x := 0
  last_known_y := 0
  preferred_range := none
  attack_weapon := none
  shots_to_fire := 0
  shots_fired := 0
  hits_this_burst := 0
  hit_chance := 0.5
  last_shot_time := 0
  next_shot_interval := 80
  interval_min := 80
  interval_max := 120
  attack_frustrated := false
  weapon_history := []
  cooldown_duration := none
  last_peek_time := none
  last_attack_x := none
  last_attack_y := none
  search_pattern := none
  search_waypoints := []
  search_waypoint_index := 0
  search_expand_count := 0
  last_search_expand := 0

/-- A concrete environment record. -/
def sample_env : Env where
  now := 10000
  camo_effective := false
  player_x := 0
  player_y := 0
  game_over := false

/-- A concrete draw record. -/
def sample_draws : TickDraws where
  spawn_duration := 2000
  detect_duration := 1000
  hesitation_roll := 0.5
  hesitation_extra := 400
  false_start_roll := 0.5
  patrol_point := (10, 10)
  windup_duration := 200
  search_timeout := 8000
  search_pattern_choice := .wander
  search_waypoints_draw := [(1, 1)]
  search_waypoints_expanded := [(2, 2)]
  move_reached := false
  coord_hold_fire := none
  coord_role := none
  cooldown_duration_draw := 1000
  reassess_roll := 0.5
  player_moved := 0
  sel_weapon_float := 0
  sel_weapon_choice := 0
  num_shots := 5
  first_interval := 90
  hit_roll := 0.9
  break_roll := 0.9
  next_interval := 100

/-- A suppressed drone in the attacking state; its suppression has not yet
expired at `sample_env.now = 10000`. -/
def suppressed_drone : Drone :=
  { sample_drone with
      is_suppressed := true
      suppression_end_time := 20000
      state := DState.attacking }

/-- A suppressed drone whose suppression has expired at `sample_env.now`. -/
def expired_suppressed_drone : Drone :=
  { sample_drone with is_suppressed := true }

/-- An unsuppressed drone still inside its suppression cooldown window at
time 10000. -/
def cooldown_drone : Drone :=
  { sample_drone with suppression_cooldown_end := 20000 }

/-! Helper lemmas. -/

/-- Closed form of the hit-chance computation. -/
theorem attack_hit_chance_eq (w : WeaponStats) (m dist alt : ℚ) :
    attack_hit_chance w m dist alt =
      max 0.2 (w.accuracy * m - dist / w.range * 0.2 -
        (if |alt| > 20 then min 0.3 (|alt| / 150) else 0)) := by
  simp only [attack_hit_chance]
  split_ifs with h <;> ring_nf

/-- An element drawn by `rchoice` is an element of the list. -/
theorem rchoice_mem {α : Type} {l : List α} {c : ℕ} {a : α}
    (h : rchoice l c = some a) : a ∈ l :=
  List.get?_mem h

/-- Membership in `valid_weapons` means the band contains the distance. -/
theorem mem_valid_weapons {p : Personality} {dist : ℚ} {w : WeaponType}
    (h : w ∈ valid_weapons p dist) : in_weapon_band p w dist := by
  unfold valid_weapons at h
  exact of_decide_eq_true (List.mem_filter.mp h).2

/-! Claim theorems. -/

/-- C1: for every weapon of `DRONE_WEAPONS`, every personality accuracy
multiplier, every non-negative distance and every altitude difference, the
burst hit chance stored by `_execute_attack` equals
`weaponAccuracy*accuracyMult - (distance/weaponRange)*0.2` minus the
altitude penalty `min(0.3, |altDiff|/150)` applied exactly when
`|altDiff| > 20`, floored at 0.2, and the stored value always lies in
`[0.2, weaponAccuracy*accuracyMult]`. -/
theorem C1_hit_chance_formula_and_bounds (w : WeaponType) (p : Personality)
    (distance altitude_diff : ℚ) (hd : 0 ≤ distance) :
    attack_hit_chance (DRONE_WEAPONS w) (DRONE_PERSONALITIES p).accuracy_mult
        distance altitude_diff
      = max 0.2 ((DRONE_WEAPONS w).accuracy * (DRONE_PERSONALITIES p).accuracy_mult
          - distance / (DRONE_WEAPONS w).range * 0.2
          - (if |altitude_diff| > 20 then min 0.3 (|altitude_diff| / 150) else 0)) ∧
    0.2 ≤ attack_hit_chance (DRONE_WEAPONS w) (DRONE_PERSONALITIES p).accuracy_mult
        distance altitude_diff ∧
    attack_hit_chance (DRONE_WEAPONS w) (DRONE_PERSONALITIES p).accuracy_mult
        distance altitude_diff
      ≤ (DRONE_WEAPONS w).accuracy * (DRONE_PERSONALITIES p).accuracy_mult := by
  have heq := attack_hit_chance_eq (DRONE_WEAPONS w)
    (DRONE_PERSONALITIES p).accuracy_mult distance altitude_diff
  refine ⟨heq, ?_, ?_⟩
  · rw [heq]; exact le_max_left _ _
  · rw [heq]
    have hrange : (0:ℚ) < (DRONE_WEAPONS w).range := by
      cases w <;> norm_num [DRONE_WEAPONS]
    have hbase : (0.2:ℚ) ≤
        (DRONE_WEAPONS w).accuracy * (DRONE_PERSONALITIES p).accuracy_mult := by
      cases w <;> cases p <;> norm_num [DRONE_WEAPONS, DRONE_PERSONALITIES]
    have hB : (0:ℚ) ≤ distance / (DRONE_WEAPONS w).range * 0.2 := by
      have h1 := div_nonneg hd hrange.le
      nlinarith
    have hpen : (0:ℚ) ≤
        (if |altitude_diff| > 20 then min 0.3 (|altitude_diff| / 150) else 0) := by
      split_ifs with h
      · exact le_min (by norm_num) (by positivity)
      · exact le_refl 0
    exact max_le hbase (by linarith)

/-- Witness for C1 at the pulse cannon, veteran, distance 10, altitude
difference 30. -/
theorem C1_witness :
    (0:ℚ) ≤ 10 ∧
    (attack_hit_chance (DRONE_WEAPONS .pulse_cannon)
        (DRONE_PERSONALITIES .veteran).accuracy_mult 10 30
      = max 0.2 ((DRONE_WEAPONS .pulse_cannon).accuracy *
            (DRONE_PERSONALITIES .veteran).accuracy_mult
          - 10 / (DRONE_WEAPONS .pulse_cannon).range * 0.2
          - (if |(30:ℚ)| > 20 then min 0.3 (|(30:ℚ)| / 150) else 0)) ∧
    0.2 ≤ attack_hit_chance (DRONE_WEAPONS .pulse_cannon)
        (DRONE_PERSONALITIES .veteran).accuracy_mult 10 30 ∧
    attack_hit_chance (DRONE_WEAPONS .pulse_cannon)
        (DRONE_PERSONALITIES .veteran).accuracy_mult 10 30
      ≤ (DRONE_WEAPONS .pulse_cannon).accuracy *
          (DRONE_PERSONALITIES .veteran).accuracy_mult) :=
  ⟨by norm_num,
   C1_hit_chance_formula_and_bounds .pulse_cannon .veteran 10 30 (by norm_num)⟩

/-- C2 counterexample: none of the three camo ranges equals half of the
corresponding non-camo range (5 ≠ 25/2, 15 ≠ 50/2, 10 ≠ 35/2). -/
theorem C2_counterexample :
    detect_range true ≠ detect_range false / 2 ∧
    lose_track_range true ≠ lose_track_range false / 2 ∧
    reacquire_range true ≠ reacquire_range false / 2 := by
  refine ⟨?_, ?_, ?_⟩ <;>
    norm_num [detect_range, lose_track_range, reacquire_range,
      DRONE_CAMO_DETECT_RANGE, DRONE_DETECT_RANGE, DRONE_CAMO_LOSE_TRACK_RANGE,
      DRONE_LOSE_TRACK_RANGE, DRONE_CAMO_REACQUIRE_RANGE, DRONE_REACQUIRE_RANGE]

/-- C2 amended: with effective camouflage the three state-machine ranges
are each strictly tighter — 5 vs 25 (a fifth), 15 vs 50 (three tenths),
10 vs 35 (two sevenths) — but none is exactly half. -/
theorem C2_camo_ranges_tighter :
    detect_range true = 5 ∧ detect_range false = 25 ∧
    lose_track_range true = 15 ∧ lose_track_range false = 50 ∧
    reacquire_range true = 10 ∧ reacquire_range false = 35 ∧
    detect_range true < detect_range false ∧
    lose_track_range true < lose_track_range false ∧
    reacquire_range true < reacquire_range false := by
  refine ⟨?_, ?_, ?_, ?_, ?_, ?_, ?_, ?_, ?_⟩ <;>
    norm_num [detect_range, lose_track_range, reacquire_range,
      DRONE_CAMO_DETECT_RANGE, DRONE_DETECT_RANGE, DRONE_CAMO_LOSE_TRACK_RANGE,
      DRONE_LOSE_TRACK_RANGE, DRONE_CAMO_REACQUIRE_RANGE, DRONE_REACQUIRE_RANGE]

/-- C3 counterexample: a veteran drone at actual distance 33 with learned
`preferred_range` 20 selects the plasma launcher — the adaptation-adjusted
distance 33*0.7 + 20*0.3 = 29.1 is inside the veteran plasma band (12, 32)
— but the drone's actual distance 33 is outside that band, so it fires a
weapon outside the configured band for its actual distance. -/
theorem C3_counterexample :
    select_weapon .veteran 33 false (some 20) 0 0 = some .plasma_launcher ∧
    ¬ in_weapon_band .veteran .plasma_launcher 33 := by
  constructor
  · norm_num [select_weapon, adjusted_distance, valid_weapons, weapons_order,
      in_weapon_band, PERSONALITY_WEAPON_PREFS, ATTACK_ADAPTATION_ENABLED, rchoice,
      List.filter]
  · norm_num [in_weapon_band, PERSONALITY_WEAPON_PREFS]

/-- C3 amended: the selected weapon's personality band contains the
*adaptation-adjusted* distance (the actual distance blended 70/30 with the
learned preferred range when one is set) whenever any weapon's band
contains that adjusted distance; when no band matches, a distance-tier
fallback can return a weapon outside every band, and beyond 45 none. -/
theorem C3_selected_weapon_in_band (p : Personality) (distance : ℚ)
    (wounded : Bool) (pref : Option ℚ) (r : ℚ) (c : ℕ) (w : WeaponType)
    (hvalid : valid_weapons p (adjusted_distance distance pref) ≠ [])
    (hsel : select_weapon p distance wounded pref r c = some w) :
    in_weapon_band p w (adjusted_distance distance pref) := by
  apply mem_valid_weapons
  cases p with
  | rookie =>
      simp only [select_weapon] at hsel
      rw [if_pos hvalid] at hsel
      split_ifs at hsel with h1 h2 h3
      · exact (Option.some.inj hsel) ▸ h1.2
      · exact (Option.some.inj hsel) ▸ h2
      · exact rchoice_mem hsel
      · exact rchoice_mem hsel
  | veteran =>
      simp only [select_weapon] at hsel
      rw [if_pos hvalid] at hsel
      split_ifs at hsel with h1
      · exact (Option.some.inj hsel) ▸ h1.2
      · exact rchoice_mem hsel
  | ace =>
      simp only [select_weapon] at hsel
      rw [if_pos hvalid] at hsel
      split_ifs at hsel with h1 h2 h3 h4
      · exact (Option.some.inj hsel) ▸ h1.2
      · exact (Option.some.inj hsel) ▸ h2.2
      · exact (Option.some.inj hsel) ▸ h3.2
      · exact (Option.some.inj hsel) ▸ h4
      · exact rchoice_mem hsel
  | berserker =>
      simp only [select_weapon] at hsel
      rw [if_pos hvalid] at hsel
      split_ifs at hsel with h1 h2 h3 h4 h5
      · exact (Option.some.inj hsel) ▸ h1.2
      · exact (Option.some.inj hsel) ▸ h2
      · exact rchoice_mem hsel
      · exact (Option.some.inj hsel) ▸ h4
      · exact rchoice_mem hsel
      · exact rchoice_mem hsel

/-- Witness for C3 amended: a veteran at distance 20 (no learned range) has
valid weapons, and the selected plasma launcher's band contains 20. -/
theorem C3_witness :
    valid_weapons .veteran (adjusted_distance 20 none) ≠ [] ∧
    select_weapon .veteran 20 false none 0 0 = some .plasma_launcher ∧
    in_weapon_band .veteran .plasma_launcher (adjusted_distance 20 none) :=
  have hv : valid_weapons .veteran (adjusted_distance 20 none) ≠ [] := by
    norm_num [valid_weapons, adjusted_distance, weapons_order, in_weapon_band,
      PERSONALITY_WEAPON_PREFS, ATTACK_ADAPTATION_ENABLED, List.filter]
  have hs : select_weapon .veteran 20 false none 0 0 = some .plasma_launcher := by
    norm_num [select_weapon, adjusted_distance, valid_weapons, weapons_order,
      in_weapon_band, PERSONALITY_WEAPON_PREFS, ATTACK_ADAPTATION_ENABLED, rchoice,
      List.filter]
  ⟨hv, hs,
   C3_selected_weapon_in_band .veteran 20 false none 0 0 .plasma_launcher hv hs⟩

/-- C8 counterexample: from a fresh search (`search_expand_count = 0`) six
expansion events are accepted, reaching count 6; the seventh expansion
event still passes the pre-expansion check (multiplier 2.8 < 3.0) and
regenerates waypoints with applied multiplier 3.1, which exceeds
`SEARCH_EXPAND_MAX_MULT = 3.0`. -/
theorem C8_counterexample :
    (search_expand_step 0).1 = 1 ∧ (search_expand_step 1).1 = 2 ∧
    (search_expand_step 2).1 = 3 ∧ (search_expand_step 3).1 = 4 ∧
    (search_expand_step 4).1 = 5 ∧ (search_expand_step 5).1 = 6 ∧
    (search_expand_step 6).2 = some 3.1 ∧
    SEARCH_EXPAND_MAX_MULT < 3.1 := by
  refine ⟨?_, ?_, ?_, ?_, ?_, ?_, ?_, ?_⟩ <;>
    norm_num [search_expand_step, search_expand_mult, SEARCH_EXPAND_MULTIPLIER,
      SEARCH_EXPAND_MAX_MULT]

/-- C8 amended: an expansion event occurs only while the *pre-expansion*
multiplier is strictly below `SEARCH_EXPAND_MAX_MULT`, and the multiplier
applied to the regenerated waypoints never exceeds
`SEARCH_EXPAND_MAX_MULT + (SEARCH_EXPAND_MULTIPLIER - 1)` = 3.1; it can
overshoot the configured cap itself by one increment. -/
theorem C8_expand_mult_bounded (count : ℕ) (m : ℚ)
    (h : (search_expand_step count).2 = some m) :
    search_expand_mult count < SEARCH_EXPAND_MAX_MULT ∧
    m = search_expand_mult (count + 1) ∧
    m ≤ SEARCH_EXPAND_MAX_MULT + (SEARCH_EXPAND_MULTIPLIER - 1) := by
  unfold search_expand_step at h
  split_ifs at h with hc
  · refine ⟨hc, (Option.some.inj h).symm, ?_⟩
    have hc2 := hc
    unfold search_expand_mult SEARCH_EXPAND_MULTIPLIER SEARCH_EXPAND_MAX_MULT at hc2
    have hcount : (count : ℚ) < 7 := by nlinarith
    have hcount2 : count < 7 := by exact_mod_cast hcount
    have hcount3 : (count : ℚ) ≤ 6 := by exact_mod_cast Nat.lt_succ_iff.mp hcount2
    rw [← Option.some.inj h]
    unfold search_expand_mult SEARCH_EXPAND_MULTIPLIER SEARCH_EXPAND_MAX_MULT
    push_cast
    nlinarith

/-- Witness for C8 amended at count 0 (the first expansion applies 1.3). -/
theorem C8_witness :
    (search_expand_step 0).2 = some 1.3 ∧
    (search_expand_mult 0 < SEARCH_EXPAND_MAX_MULT ∧
      (1.3 : ℚ) = search_expand_mult (0 + 1) ∧
      (1.3 : ℚ) ≤ SEARCH_EXPAND_MAX_MULT + (SEARCH_EXPAND_MULTIPLIER - 1)) :=
  have h0 : (search_expand_step 0).2 = some 1.3 := by
    norm_num [search_expand_step, search_expand_mult, SEARCH_EXPAND_MULTIPLIER,
      SEARCH_EXPAND_MAX_MULT]
  ⟨h0, C8_expand_mult_bounded 0 1.3 h0⟩

/-- C9: the failing run — with `max_drones = 2`: spawn (id 0), spawn (id 1),
destroy drone 0, remove it once silent, then spawn again.  `_spawn_drone`
assigns `id = len(self.drones)`, so the new drone also receives id 1 and
the collection ends with two distinct drones sharing id 1 (their shared id
also collides in the per-id audio channel pool). -/
theorem C9_id_collision :
    ((run_manager 2 (fun _ => sample_drone) (fun _ => true)
        [.spawn, .spawn, .destroy 0, .remove, .spawn] []).map fun d => d.id)
      = [1, 1] ∧
    ¬ ((run_manager 2 (fun _ => sample_drone) (fun _ => true)
        [.spawn, .spawn, .destroy 0, .remove, .spawn] []).map fun d => d.id).Nodup := by
  refine ⟨by rfl, by decide⟩

/-- C10: `_move_drone_toward` / `Drone.move_toward` with non-negative speed
and dt: the call returns True exactly when the drone is already strictly
within 0.5 of the target, leaving the position unchanged; otherwise the
step is capped at the remaining distance (never overshoots) and the new
squared distance to the target is `(dist - step)^2 ≤ dist^2` (the distance
to the target never increases). -/
theorem C10_move_toward_contract (x y tx ty dist speed dt : ℚ)
    (hs : 0 ≤ speed) (ht : 0 ≤ dt) (hd : 0 ≤ dist)
    (hdist : dist ^ 2 = (tx - x) ^ 2 + (ty - y) ^ 2) :
    ((move_toward x y tx ty dist speed dt).reached = true ↔ dist < 0.5) ∧
    (dist < 0.5 → move_toward x y tx ty dist speed dt = ⟨x, y, true⟩) ∧
    (¬ dist < 0.5 →
      (move_toward x y tx ty dist speed dt).reached = false ∧
      0 ≤ (if speed * dt > dist then dist else speed * dt) ∧
      (if speed * dt > dist then dist else speed * dt) ≤ dist ∧
      (tx - (move_toward x y tx ty dist speed dt).x) ^ 2 +
        (ty - (move_toward x y tx ty dist speed dt).y) ^ 2 =
        (dist - (if speed * dt > dist then dist else speed * dt)) ^ 2 ∧
      (dist - (if speed * dt > dist then dist else speed * dt)) ^ 2 ≤ dist ^ 2) := by
  by_cases hlt : dist < 0.5
  · refine ⟨?_, fun _ => ?_, fun hn => absurd hlt hn⟩
    · simp [move_toward, hlt]
    · simp [move_toward, hlt]
  · have hpos : (0:ℚ) < dist := by
      have : (0.5:ℚ) ≤ dist := le_of_not_lt hlt
      linarith
    have hne : dist ≠ 0 := ne_of_gt hpos
    have hm0 : (0:ℚ) ≤ (if speed * dt > dist then dist else speed * dt) := by
      split_ifs
      · exact hd
      · exact mul_nonneg hs ht
    have hmd : (if speed * dt > dist then dist else speed * dt) ≤ dist := by
      split_ifs with hgt
      · exact le_refl dist
      · exact le_of_not_lt hgt
    refine ⟨?_, fun hc => absurd hc hlt, fun _ => ⟨?_, hm0, hmd, ?_, ?_⟩⟩
    · simp [move_toward, hlt]
    · simp [move_toward, hlt]
    · have hx : (move_toward x y tx ty dist speed dt).x
          = x + (tx - x) / dist * (if speed * dt > dist then dist else speed * dt) := by
        simp [move_toward, if_neg hlt]
      have hy : (move_toward x y tx ty dist speed dt).y
          = y + (ty - y) / dist * (if speed * dt > dist then dist else speed * dt) := by
        simp [move_toward, if_neg hlt]
      rw [hx, hy]
      by_cases hgt : speed * dt > dist
      · rw [if_pos hgt, div_mul_cancel₀ _ hne, div_mul_cancel₀ _ hne]
        ring
      · rw [if_neg hgt]
        have h1 : tx - (x + (tx - x) / dist * (speed * dt))
            = (tx - x) * (dist - speed * dt) / dist := by
          field_simp
          ring
        have h2 : ty - (y + (ty - y) / dist * (speed * dt))
            = (ty - y) * (dist - speed * dt) / dist := by
          field_simp
          ring
        rw [h1, h2, div_pow, div_pow, div_add_div_same, mul_pow, mul_pow, ← add_mul,
            ← hdist]
        rw [mul_comm (dist ^ 2), mul_div_assoc, div_self (pow_ne_zero 2 hne), mul_one]
    · have h1 : 0 ≤ dist - (if speed * dt > dist then dist else speed * dt) := by linarith
      have h2 : dist - (if speed * dt > dist then dist else speed * dt) ≤ dist := by linarith
      exact pow_le_pow_left₀ h1 h2 2

/-- Witness for C10 on the 3-4-5 triangle (dist 5, speed 1, dt 1). -/
theorem C10_witness :
    (0:ℚ) ≤ 1 ∧ (0:ℚ) ≤ 1 ∧ (0:ℚ) ≤ 5 ∧
    ((5:ℚ) ^ 2 = (3 - 0) ^ 2 + (4 - 0) ^ 2) ∧
    (((move_toward 0 0 3 4 5 1 1).reached = true ↔ (5:ℚ) < 0.5) ∧
     ((5:ℚ) < 0.5 → move_toward 0 0 3 4 5 1 1 = ⟨0, 0, true⟩) ∧
     (¬ (5:ℚ) < 0.5 →
       (move_toward 0 0 3 4 5 1 1).reached = false ∧
       (0:ℚ) ≤ (if (1:ℚ) * 1 > 5 then 5 else 1 * 1) ∧
       (if (1:ℚ) * 1 > 5 then (5:ℚ) else 1 * 1) ≤ 5 ∧
       (3 - (move_toward 0 0 3 4 5 1 1).x) ^ 2 +
         (4 - (move_toward 0 0 3 4 5 1 1).y) ^ 2 =
         ((5:ℚ) - (if (1:ℚ) * 1 > 5 then 5 else 1 * 1)) ^ 2 ∧
       ((5:ℚ) - (if (1:ℚ) * 1 > 5 then 5 else 1 * 1)) ^ 2 ≤ (5:ℚ) ^ 2)) :=
  ⟨by norm_num, by norm_num, by norm_num, by norm_num,
   C10_move_toward_contract 0 0 3 4 5 1 1 (by norm_num) (by norm_num)
     (by norm_num) (by norm_num)⟩

/-! C5: the wounded state is applied exactly once. -/

/-- `health_percent` as computed by the source equals the health value. -/
theorem health_percent_eq (q : ℚ) : q / 100.0 * 100 = q := by
  have h : (100.0 : ℚ) = 100 := by norm_num
  rw [h, div_mul_cancel₀ _ (by norm_num : (100:ℚ) ≠ 0)]

/-- Unfolding one tick of `wounded_run`. -/
theorem wounded_run_cons (d : Drone) (a : ℚ) (l : List ℚ) :
    wounded_run d (a :: l) = wounded_run (wounded_check { d with health := a }) l := rfl

/-- Once `is_wounded` is latched, further wounded checks never rescale. -/
theorem wounded_run_wounded (l : List ℚ) (d : Drone) (h : d.is_wounded = true) :
    (wounded_run d l).is_wounded = true ∧
    (wounded_run d l).evasion_skill = d.evasion_skill ∧
    (wounded_run d l).aggression = d.aggression := by
  induction l generalizing d with
  | nil => exact ⟨h, rfl, rfl⟩
  | cons a t ih =>
      have hstep : wounded_check { d with health := a } = { d with health := a } := by
        simp only [wounded_check]
        rw [if_neg]
        simp [h]
      rw [wounded_run_cons, hstep]
      exact ih { d with health := a } h

/-- C5: starting not wounded, over any sequence of per-tick health values:
if some value is at or below the 25% threshold, the drone ends wounded with
`evasion_skill` and `aggression` each scaled exactly once by the wounded
multipliers (never cumulatively on later low-health ticks or further
damage); if no value crosses the threshold, nothing changes. -/
theorem C5_wounded_scaled_exactly_once (d : Drone) (healths : List ℚ)
    (h0 : d.is_wounded = false) :
    (healths.any (fun h => decide (h ≤ WOUNDED_HEALTH_THRESHOLD)) = true →
      (wounded_run d healths).is_wounded = true ∧
      (wounded_run d healths).evasion_skill = d.evasion_skill * WOUNDED_EVASION_MULT ∧
      (wounded_run d healths).aggression = d.aggression * WOUNDED_AGGRESSION_MULT) ∧
    (healths.any (fun h => decide (h ≤ WOUNDED_HEALTH_THRESHOLD)) = false →
      (wounded_run d healths).is_wounded = false ∧
      (wounded_run d healths).evasion_skill = d.evasion_skill ∧
      (wounded_run d healths).aggression = d.aggression) := by
  induction healths generalizing d with
  | nil =>
      refine ⟨fun hany => ?_, fun _ => ⟨h0, rfl, rfl⟩⟩
      simp [List.any] at hany
  | cons a t ih =>
      by_cases ha : a ≤ WOUNDED_HEALTH_THRESHOLD
      · have hcond : ({ d with health := a } : Drone).health / 100.0 * 100 ≤
            WOUNDED_HEALTH_THRESHOLD ∧ ({ d with health := a } : Drone).is_wounded = false := by
          refine ⟨?_, h0⟩
          show a / 100.0 * 100 ≤ WOUNDED_HEALTH_THRESHOLD
          rw [health_percent_eq]
          exact ha
        have hstep : wounded_check { d with health := a } =
            { d with health := a, is_wounded := true,
                     evasion_skill := d.evasion_skill * WOUNDED_EVASION_MULT,
                     aggression := d.aggression * WOUNDED_AGGRESSION_MULT } := by
          simp only [wounded_check]
          rw [if_pos hcond]
        have hrest := wounded_run_wounded t
          { d with health := a, is_wounded := true,
                   evasion_skill := d.evasion_skill * WOUNDED_EVASION_MULT,
                   aggression := d.aggression * WOUNDED_AGGRESSION_MULT } rfl
        constructor
        · intro _
          rw [wounded_run_cons, hstep]
          exact ⟨hrest.1, hrest.2.1, hrest.2.2⟩
        · intro hnone
          exfalso
          simp [List.any_cons, ha] at hnone
      · have hstep : wounded_check { d with health := a } = { d with health := a } := by
          simp only [wounded_check]
          rw [if_neg]
          intro hcon
          apply ha
          have h1 := hcon.1
          rwa [show ({ d with health := a } : Drone).health / 100.0 * 100 = a from
            health_percent_eq a] at h1
        have iht := ih { d with health := a } h0
        constructor
        · intro hany
          rw [wounded_run_cons, hstep]
          have : t.any (fun h => decide (h ≤ WOUNDED_HEALTH_THRESHOLD)) = true := by
            simpa [List.any_cons, ha] using hany
          exact iht.1 this
        · intro hnone
          rw [wounded_run_cons, hstep]
          have : t.any (fun h => decide (h ≤ WOUNDED_HEALTH_THRESHOLD)) = false := by
            simpa [List.any_cons, ha] using hnone
          exact iht.2 this

/-- Witness for C5: health sequence [20] crosses the threshold once. -/
theorem C5_witness :
    sample_drone.is_wounded = false ∧
    (([(20:ℚ)].any (fun h => decide (h ≤ WOUNDED_HEALTH_THRESHOLD)) = true →
      (wounded_run sample_drone [20]).is_wounded = true ∧
      (wounded_run sample_drone [20]).evasion_skill =
        sample_drone.evasion_skill * WOUNDED_EVASION_MULT ∧
      (wounded_run sample_drone [20]).aggression =
        sample_drone.aggression * WOUNDED_AGGRESSION_MULT) ∧
    (([(20:ℚ)].any (fun h => decide (h ≤ WOUNDED_HEALTH_THRESHOLD)) = false →
      (wounded_run sample_drone [20]).is_wounded = false ∧
      (wounded_run sample_drone [20]).evasion_skill = sample_drone.evasion_skill ∧
      (wounded_run sample_drone [20]).aggression = sample_drone.aggression))) :=
  ⟨rfl, C5_wounded_scaled_exactly_once sample_drone [20] rfl⟩

/-! C4: burst counters and recorded outcomes. -/

/-- `_log_attack_results` keeps the shot counters, zeroes the burst hit
counter, and every outcome in the resulting history still has
hits ≤ shots (the newly appended outcome records the current counters). -/
theorem log_attack_results_spec (d : Drone) (env : Env) (wt : WeaponType)
    (hhb : d.hits_this_burst ≤ d.shots_fired)
    (hhist : ∀ o ∈ d.weapon_history, o.hits ≤ o.shots) :
    (log_attack_results d env wt).shots_fired = d.shots_fired ∧
    (log_attack_results d env wt).shots_to_fire = d.shots_to_fire ∧
    (log_attack_results d env wt).hits_this_burst ≤ d.hits_this_burst ∧
    ∀ o ∈ (log_attack_results d env wt).weapon_history, o.hits ≤ o.shots := by
  have hout : ∀ (hr : ℚ) (o : BurstOutcome),
      o ∈ d.weapon_history ++
        [⟨wt, hr, d.distance, d.hits_this_burst, d.shots_fired⟩] →
      o.hits ≤ o.shots := by
    intro hr o ho
    rcases List.mem_append.mp ho with hl | hl
    · exact hhist o hl
    · rw [List.mem_singleton.mp hl]
      exact hhb
  simp only [log_attack_results]
  split_ifs
  · exact ⟨rfl, rfl, le_refl _, hhist⟩
  all_goals refine ⟨rfl, rfl, Nat.zero_le _, ?_⟩
  all_goals intro o ho
  all_goals
    first
      | exact hout _ o (List.mem_of_mem_drop ho)
      | exact hout _ o ho
      | exact hhist o ho

/-- `_log_attack_results` preserves the burst invariant. -/
theorem log_attack_results_inv (d : Drone) (env : Env) (wt : WeaponType)
    (h : burst_inv d) : burst_inv (log_attack_results d env wt) := by
  obtain ⟨h1, h2, h3⟩ := h
  obtain ⟨e1, e2, e3, e4⟩ := log_attack_results_spec d env wt h2 h3
  refine ⟨?_, ?_, e4⟩
  · rw [e1, e2]; exact h1
  · rw [e1]
    exact le_trans e3 h2

/-- One `_update_attack_firing` tick preserves the burst invariant — also
on ticks where the frustration check breaks the burst off early. -/
theorem update_attack_firing_inv (d : Drone) (env : Env) (dr : TickDraws)
    (h : burst_inv d) : burst_inv (update_attack_firing d env dr).1 := by
  obtain ⟨h1, h2, h3⟩ := h
  simp only [update_attack_firing]
  split_ifs
  all_goals
    first
      | exact ⟨h1, h2, h3⟩
      | (apply log_attack_results_inv
         refine ⟨?_, ?_, h3⟩ <;> (simp; try omega))
      | (refine ⟨?_, ?_, h3⟩ <;> (simp; try omega))

/-- `_execute_attack` (re)establishes the burst invariant whenever it
actually sets a burst up (game running and a weapon selected). -/
theorem execute_attack_init (d : Drone) (env : Env) (dr : TickDraws)
    (hgo : env.game_over = false)
    (hsel : (select_weapon d.personality d.distance d.is_wounded d.preferred_range
      dr.sel_weapon_float dr.sel_weapon_choice).isSome = true)
    (hhist : ∀ o ∈ d.weapon_history, o.hits ≤ o.shots) :
    burst_inv (execute_attack d env dr) := by
  simp only [execute_attack]
  rw [if_neg (by simp [hgo])]
  obtain ⟨w, hw⟩ := Option.isSome_iff_exists.mp hsel
  rw [hw]
  exact ⟨Nat.zero_le _, le_refl 0, hhist⟩

/-- Any sequence of firing ticks preserves the burst invariant. -/
theorem foldl_firing_inv (ticks : List (Env × TickDraws)) (d : Drone)
    (h : burst_inv d) :
    burst_inv (ticks.foldl (fun dd t => (update_attack_firing dd t.1 t.2).1) d) := by
  induction ticks generalizing d with
  | nil => exact h
  | cons t ts ih => exact ih _ (update_attack_firing_inv d t.1 t.2 h)

/-- C4: for every burst — `_execute_attack` set-up followed by any sequence
of `_update_attack_firing` ticks, at every tick — `shots_fired` never
exceeds `shots_to_fire` and `hits_this_burst` never exceeds `shots_fired`,
including bursts broken off early by the frustration/adaptation check, and
every outcome recorded in `weapon_history` satisfies hits ≤ shots. -/
theorem C4_burst_counters_invariant :
    (∀ d env dr, env.game_over = false →
      (select_weapon d.personality d.distance d.is_wounded d.preferred_range
        dr.sel_weapon_float dr.sel_weapon_choice).isSome = true →
      (∀ o ∈ d.weapon_history, o.hits ≤ o.shots) →
      burst_inv (execute_attack d env dr)) ∧
    (∀ d env dr, burst_inv d → burst_inv (update_attack_firing d env dr).1) ∧
    (∀ d env dr ticks, env.game_over = false →
      (select_weapon d.personality d.distance d.is_wounded d.preferred_range
        dr.sel_weapon_float dr.sel_weapon_choice).isSome = true →
      (∀ o ∈ d.weapon_history, o.hits ≤ o.shots) →
      burst_inv (burst_run d env dr ticks)) :=
  ⟨fun d env dr hgo hsel hhist => execute_attack_init d env dr hgo hsel hhist,
   fun d env dr h => update_attack_firing_inv d env dr h,
   fun d env dr ticks hgo hsel hhist =>
     foldl_firing_inv ticks _ (execute_attack_init d env dr hgo hsel hhist)⟩

/-- Witness for C4: one burst of the sample drone with one firing tick. -/
theorem C4_witness :
    sample_env.game_over = false ∧
    (select_weapon sample_drone.personality sample_drone.distance
      sample_drone.is_wounded sample_drone.preferred_range
      sample_draws.sel_weapon_float sample_draws.sel_weapon_choice).isSome = true ∧
    (∀ o ∈ sample_drone.weapon_history, o.hits ≤ o.shots) ∧
    burst_inv (burst_run sample_drone sample_env sample_draws
      [(sample_env, sample_draws)]) :=
  have hsel : (select_weapon sample_drone.personality sample_drone.distance
      sample_drone.is_wounded sample_drone.preferred_range
      sample_draws.sel_weapon_float sample_draws.sel_weapon_choice).isSome = true := by
    norm_num [sample_drone, sample_draws, select_weapon, adjusted_distance,
      valid_weapons, weapons_order, in_weapon_band, PERSONALITY_WEAPON_PREFS,
      ATTACK_ADAPTATION_ENABLED, rchoice, List.filter]
  have hhist : ∀ o ∈ sample_drone.weapon_history, o.hits ≤ o.shots := by
    simp [sample_drone]
  ⟨rfl, hsel, hhist,
   C4_burst_counters_invariant.2.2 sample_drone sample_env sample_draws
     [(sample_env, sample_draws)] rfl hsel hhist⟩

/-! C6: removal requires destroyed state and silent audio. -/

/-- C6: a drone present in the collection is dropped by the removal pass of
`update` exactly when its state is `destroyed` and the audio layer reports
it silent; a drone in any other state — or one whose audio is still busy —
always survives the pass.  `remove_resolved` takes no clock input, so mere
elapsed time can never trigger a removal. -/
theorem C6_removed_iff_destroyed_and_silent (drones : List Drone)
    (silent : ℕ → Bool) (d : Drone) (hin : d ∈ drones) :
    d ∉ remove_resolved drones silent ↔
      (d.state = DState.destroyed ∧ silent d.id = true) := by
  unfold remove_resolved
  constructor
  · intro hno
    have hp : ¬((!(d.state == DState.destroyed && silent d.id)) = true) :=
      fun hb => hno (List.mem_filter.mpr ⟨hin, hb⟩)
    rw [Bool.not_eq_true', Bool.not_eq_false] at hp
    have hand : (d.state == DState.destroyed) = true ∧ silent d.id = true := by
      simpa using hp
    exact ⟨beq_iff_eq.mp hand.1, hand.2⟩
  · intro hds hmem
    have hb := (List.mem_filter.mp hmem).2
    rw [Bool.not_eq_true', Bool.and_eq_false_iff] at hb
    rcases hb with hb | hb
    · simp [hds.1] at hb
    · simp [hds.2] at hb

/-- Witness for C6: a destroyed drone with silent audio is removed. -/
theorem C6_witness :
    ({ sample_drone with state := DState.destroyed } : Drone) ∈
      [{ sample_drone with state := DState.destroyed }] ∧
    (({ sample_drone with state := DState.destroyed } : Drone) ∉
        remove_resolved [{ sample_drone with state := DState.destroyed }] (fun _ => true) ↔
      (({ sample_drone with state := DState.destroyed } : Drone).state = DState.destroyed ∧
        (fun (_ : ℕ) => true) ({ sample_drone with state := DState.destroyed } : Drone).id
          = true)) :=
  ⟨List.mem_singleton.mpr rfl,
   C6_removed_iff_destroyed_and_silent
     [{ sample_drone with state := DState.destroyed }] (fun _ => true)
     { sample_drone with state := DState.destroyed } (List.mem_singleton.mpr rfl)⟩

/-! C7: suppression blocks firing; the cooldown blocks re-suppression.
First: no function of the state machine ever touches the suppression
fields (only the gate and `damage_drone` do). -/

/-- `wounded_check` keeps the state. -/
@[simp] theorem wounded_check_state (d : Drone) :
    (wounded_check d).state = d.state := by
  simp only [wounded_check]; split <;> rfl

/-- `wounded_check` keeps the suppression flag. -/
@[simp] theorem wounded_check_is_suppressed (d : Drone) :
    (wounded_check d).is_suppressed = d.is_suppressed := by
  simp only [wounded_check]; split <;> rfl

/-- `wounded_check` keeps the suppression end time. -/
@[simp] theorem wounded_check_suppression_end_time (d : Drone) :
    (wounded_check d).suppression_end_time = d.suppression_end_time := by
  simp only [wounded_check]; split <;> rfl

/-- `wounded_check` keeps the suppression cooldown. -/
@[simp] theorem wounded_check_suppression_cooldown_end (d : Drone) :
    (wounded_check d).suppression_cooldown_end = d.suppression_cooldown_end := by
  simp only [wounded_check]; split <;> rfl

/-- `distress_check` keeps the state. -/
@[simp] theorem distress_check_state (d : Drone) (env : Env) :
    (distress_check d env).state = d.state := by
  simp only [distress_check]; split <;> rfl

/-- `distress_check` keeps the suppression flag. -/
@[simp] theorem distress_check_is_suppressed (d : Drone) (env : Env) :
    (distress_check d env).is_suppressed = d.is_suppressed := by
  simp only [distress_check]; split <;> rfl

/-- `distress_check` keeps the suppression cooldown. -/
@[simp] theorem distress_check_suppression_cooldown_end (d : Drone) (env : Env) :
    (distress_check d env).suppression_cooldown_end = d.suppression_cooldown_end := by
  simp only [distress_check]; split <;> rfl

/-- `_log_attack_results` keeps the suppression flag. -/
@[simp] theorem log_attack_results_is_suppressed (d : Drone) (env : Env)
    (wt : WeaponType) :
    (log_attack_results d env wt).is_suppressed = d.is_suppressed := by
  simp only [log_attack_results]
  split_ifs <;> (repeat' split) <;> simp

/-- `_log_attack_results` keeps the suppression cooldown. -/
@[simp] theorem log_attack_results_suppression_cooldown_end (d : Drone) (env : Env)
    (wt : WeaponType) :
    (log_attack_results d env wt).suppression_cooldown_end
      = d.suppression_cooldown_end := by
  simp only [log_attack_results]
  split_ifs <;> (repeat' split) <;> simp

/-- `_execute_attack` keeps the suppression flag. -/
@[simp] theorem execute_attack_is_suppressed (d : Drone) (env : Env)
    (dr : TickDraws) :
    (execute_attack d env dr).is_suppressed = d.is_suppressed := by
  simp only [execute_attack]
  split_ifs <;> (repeat' split) <;> simp

/-- `_execute_attack` keeps the suppression cooldown. -/
@[simp] theorem execute_attack_suppression_cooldown_end (d : Drone) (env : Env)
    (dr : TickDraws) :
    (execute_attack d env dr).suppression_cooldown_end
      = d.suppression_cooldown_end := by
  simp only [execute_attack]
  split_ifs <;> (repeat' split) <;> simp

/-- `_update_attack_firing` keeps the suppression flag. -/
@[simp] theorem update_attack_firing_is_suppressed (d : Drone) (env : Env)
    (dr : TickDraws) :
    (update_attack_firing d env dr).1.is_suppressed = d.is_suppressed := by
  simp only [update_attack_firing]
  split_ifs <;> (repeat' split) <;> simp

/-- `_update_attack_firing` keeps the suppression cooldown. -/
@[simp] theorem update_attack_firing_suppression_cooldown_end (d : Drone)
    (env : Env) (dr : TickDraws) :
    (update_attack_firing d env dr).1.suppression_cooldown_end
      = d.suppression_cooldown_end := by
  simp only [update_attack_firing]
  split_ifs <;> (repeat' split) <;> simp

/-- The `spawning` branch keeps the suppression flag. -/
@[simp] theorem tick_spawning_is_suppressed (d : Drone) (env : Env) (dr : TickDraws) :
    (tick_spawning d env dr).is_suppressed = d.is_suppressed := by
  simp only [tick_spawning]
  split_ifs <;> (repeat' split) <;> simp

/-- The `spawning` branch keeps the suppression cooldown. -/
@[simp] theorem tick_spawning_suppression_cooldown_end (d : Drone) (env : Env)
    (dr : TickDraws) :
    (tick_spawning d env dr).suppression_cooldown_end = d.suppression_cooldown_end := by
  simp only [tick_spawning]
  split_ifs <;> (repeat' split) <;> simp

/-- The `patrol` branch keeps the suppression flag. -/
@[simp] theorem tick_patrol_is_suppressed (d : Drone) (env : Env) (dr : TickDraws) :
    (tick_patrol d env dr).is_suppressed = d.is_suppressed := by
  simp only [tick_patrol]
  split_ifs <;> (repeat' split) <;> simp

/-- The `patrol` branch keeps the suppression cooldown. -/
@[simp] theorem tick_patrol_suppression_cooldown_end (d : Drone) (env : Env)
    (dr : TickDraws) :
    (tick_patrol d env dr).suppression_cooldown_end = d.suppression_cooldown_end := by
  simp only [tick_patrol]
  split_ifs <;> (repeat' split) <;> simp

/-- The `detecting` branch keeps the suppression flag. -/
@[simp] theorem tick_detecting_is_suppressed (d : Drone) (env : Env) (dr : TickDraws) :
    (tick_detecting d env dr).is_suppressed = d.is_suppressed := by
  simp only [tick_detecting]
  split_ifs <;> (repeat' split) <;> simp

/-- The `detecting` branch keeps the suppression cooldown. -/
@[simp] theorem tick_detecting_suppression_cooldown_end (d : Drone) (env : Env)
    (dr : TickDraws) :
    (tick_detecting d env dr).suppression_cooldown_end = d.suppression_cooldown_end := by
  simp only [tick_detecting]
  split_ifs <;> (repeat' split) <;> simp

/-- The `engaging` branch keeps the suppression flag. -/
@[simp] theorem tick_engaging_is_suppressed (d : Drone) (env : Env) (dr : TickDraws) :
    (tick_engaging d env dr).1.is_suppressed = d.is_suppressed := by
  simp only [tick_engaging]
  split_ifs <;> (repeat' split) <;> simp

/-- The `engaging` branch keeps the suppression cooldown. -/
@[simp] theorem tick_engaging_suppression_cooldown_end (d : Drone) (env : Env)
    (dr : TickDraws) :
    (tick_engaging d env dr).1.suppression_cooldown_end
      = d.suppression_cooldown_end := by
  simp only [tick_engaging]
  split_ifs <;> (repeat' split) <;> simp

/-- The `winding_up` branch keeps the suppression flag. -/
@[simp] theorem tick_winding_up_is_suppressed (d : Drone) (env : Env) (dr : TickDraws) :
    (tick_winding_up d env dr).1.is_suppressed = d.is_suppressed := by
  simp only [tick_winding_up]
  split_ifs <;> (repeat' split) <;> simp

/-- The `winding_up` branch keeps the suppression cooldown. -/
@[simp] theorem tick_winding_up_suppression_cooldown_end (d : Drone) (env : Env)
    (dr : TickDraws) :
    (tick_winding_up d env dr).1.suppression_cooldown_end
      = d.suppression_cooldown_end := by
  simp only [tick_winding_up]
  split_ifs <;> (repeat' split) <;> simp

/-- `search_init` keeps the suppression flag. -/
@[simp] theorem search_init_is_suppressed (d : Drone) (env : Env) (dr : TickDraws) :
    (search_init d env dr).is_suppressed = d.is_suppressed := by
  simp only [search_init]; split <;> rfl

/-- `search_init` keeps the suppression cooldown. -/
@[simp] theorem search_init_suppression_cooldown_end (d : Drone) (env : Env)
    (dr : TickDraws) :
    (search_init d env dr).suppression_cooldown_end = d.suppression_cooldown_end := by
  simp only [search_init]; split <;> rfl

/-- `search_expand_phase` keeps the suppression flag. -/
@[simp] theorem search_expand_phase_is_suppressed (d : Drone) (env : Env)
    (dr : TickDraws) :
    (search_expand_phase d env dr).is_suppressed = d.is_suppressed := by
  simp only [search_expand_phase]
  split_ifs <;> (repeat' split) <;> rfl

/-- `search_expand_phase` keeps the suppression cooldown. -/
@[simp] theorem search_expand_phase_suppression_cooldown_end (d : Drone) (env : Env)
    (dr : TickDraws) :
    (search_expand_phase d env dr).suppression_cooldown_end
      = d.suppression_cooldown_end := by
  simp only [search_expand_phase]
  split_ifs <;> (repeat' split) <;> rfl

/-- `search_waypoint_phase` keeps the suppression flag. -/
@[simp] theorem search_waypoint_phase_is_suppressed (d : Drone) (reached : Bool) :
    (search_waypoint_phase d reached).is_suppressed = d.is_suppressed := by
  simp only [search_waypoint_phase]
  split_ifs <;> rfl

/-- `search_waypoint_phase` keeps the suppression cooldown. -/
@[simp] theorem search_waypoint_phase_suppression_cooldown_end (d : Drone)
    (reached : Bool) :
    (search_waypoint_phase d reached).suppression_cooldown_end
      = d.suppression_cooldown_end := by
  simp only [search_waypoint_phase]
  split_ifs <;> rfl

/-- `ensure_state_duration` keeps the suppression flag. -/
@[simp] theorem ensure_state_duration_is_suppressed (d : Drone) (dur : ℤ) :
    (ensure_state_duration d dur).is_suppressed = d.is_suppressed := by
  simp only [ensure_state_duration]; split <;> rfl

/-- `ensure_state_duration` keeps the suppression cooldown. -/
@[simp] theorem ensure_state_duration_suppression_cooldown_end (d : Drone) (dur : ℤ) :
    (ensure_state_duration d dur).suppression_cooldown_end
      = d.suppression_cooldown_end := by
  simp only [ensure_state_duration]; split <;> rfl

/-- The `searching` branch keeps the suppression flag. -/
@[simp] theorem tick_searching_is_suppressed (d : Drone) (env : Env) (dr : TickDraws) :
    (tick_searching d env dr).is_suppressed = d.is_suppressed := by
  simp only [tick_searching]
  split_ifs <;> simp

/-- The `searching` branch keeps the suppression cooldown. -/
@[simp] theorem tick_searching_suppression_cooldown_end (d : Drone) (env : Env)
    (dr : TickDraws) :
    (tick_searching d env dr).suppression_cooldown_end = d.suppression_cooldown_end := by
  simp only [tick_searching]
  split_ifs <;> simp

/-- The `attacking` branch keeps the suppression flag. -/
@[simp] theorem tick_attacking_is_suppressed (d : Drone) (env : Env) (dr : TickDraws) :
    (tick_attacking d env dr).1.is_suppressed = d.is_suppressed := by
  simp only [tick_attacking]
  split_ifs <;> (repeat' split) <;> simp

/-- The `attacking` branch keeps the suppression cooldown. -/
@[simp] theorem tick_attacking_suppression_cooldown_end (d : Drone) (env : Env)
    (dr : TickDraws) :
    (tick_attacking d env dr).1.suppression_cooldown_end
      = d.suppression_cooldown_end := by
  simp only [tick_attacking]
  split_ifs <;> (repeat' split) <;> simp

/-- `cooldown_peek` keeps the suppression flag. -/
@[simp] theorem cooldown_peek_is_suppressed (d : Drone) (env : Env) (dr : TickDraws)
    (cd : ℤ) :
    (cooldown_peek d env dr cd).1.is_suppressed = d.is_suppressed := by
  simp only [cooldown_peek]
  split_ifs <;> rfl

/-- `cooldown_peek` keeps the suppression cooldown. -/
@[simp] theorem cooldown_peek_suppression_cooldown_end (d : Drone) (env : Env)
    (dr : TickDraws) (cd : ℤ) :
    (cooldown_peek d env dr cd).1.suppression_cooldown_end
      = d.suppression_cooldown_end := by
  simp only [cooldown_peek]
  split_ifs <;> rfl

/-- The `cooldown` branch keeps the suppression flag. -/
@[simp] theorem tick_cooldown_is_suppressed (d : Drone) (env : Env) (dr : TickDraws) :
    (tick_cooldown d env dr).is_suppressed = d.is_suppressed := by
  simp only [tick_cooldown]
  split_ifs <;> simp

/-- The `cooldown` branch keeps the suppression cooldown. -/
@[simp] theorem tick_cooldown_suppression_cooldown_end (d : Drone) (env : Env)
    (dr : TickDraws) :
    (tick_cooldown d env dr).suppression_cooldown_end = d.suppression_cooldown_end := by
  simp only [tick_cooldown]
  split_ifs <;> simp

/-- The branch dispatch keeps the suppression flag. -/
@[simp] theorem state_branch_is_suppressed (d : Drone) (env : Env) (dr : TickDraws) :
    (state_branch d env dr).1.is_suppressed = d.is_suppressed := by
  unfold state_branch
  cases h : d.state <;> simp

/-- The branch dispatch keeps the suppression cooldown. -/
@[simp] theorem state_branch_suppression_cooldown_end (d : Drone) (env : Env)
    (dr : TickDraws) :
    (state_branch d env dr).1.suppression_cooldown_end
      = d.suppression_cooldown_end := by
  unfold state_branch
  cases h : d.state <;> simp

/-- Outside the three combat states the branch dispatch emits no events. -/
theorem state_branch_events_default (d : Drone) (env : Env) (dr : TickDraws)
    (hst : ¬(d.state = DState.engaging ∨ d.state = DState.winding_up ∨
      d.state = DState.attacking)) :
    (state_branch d env dr).2 = ({} : TickEvents) := by
  unfold state_branch
  cases h : d.state
  case engaging => exact absurd (Or.inl h) hst
  case winding_up => exact absurd (Or.inr (Or.inl h)) hst
  case attacking => exact absurd (Or.inr (Or.inr h)) hst
  all_goals rfl

/-- While suppressed (not yet expired) a state-machine tick fires no shot,
deals no player damage, and sets up no attack burst. -/
theorem suppressed_tick_no_fire (d : Drone) (env : Env) (dr : TickDraws)
    (hsup : d.is_suppressed = true) (hnow : env.now < d.suppression_end_time) :
    (update_drone_state d env dr).2.fired_shot = false ∧
    (update_drone_state d env dr).2.player_damage = 0 ∧
    (update_drone_state d env dr).2.executed_attack = false := by
  simp only [update_drone_state]
  rw [if_pos ⟨rfl, by rw [wounded_check_is_suppressed]; exact hsup⟩]
  rw [if_neg (by rw [wounded_check_suppression_end_time]; exact not_le.mpr hnow)]
  by_cases hst : (wounded_check d).state = DState.engaging ∨
      (wounded_check d).state = DState.winding_up ∨
      (wounded_check d).state = DState.attacking
  · rw [if_pos hst]
    exact ⟨rfl, rfl, rfl⟩
  · rw [if_neg hst]
    have hev : (state_branch (distress_check (wounded_check d) env) env dr).2
        = ({} : TickEvents) := by
      apply state_branch_events_default
      rw [distress_check_state]
      exact hst
    dsimp only
    rw [hev]
    exact ⟨rfl, rfl, rfl⟩

/-- While suppressed (not yet expired) in a combat state, the tick is just
the wounded check plus evasive movement: state and all other fields are
untouched. -/
theorem suppressed_tick_skips_combat (d : Drone) (env : Env) (dr : TickDraws)
    (hsup : d.is_suppressed = true) (hnow : env.now < d.suppression_end_time)
    (hst : d.state = DState.engaging ∨ d.state = DState.winding_up ∨
      d.state = DState.attacking) :
    update_drone_state d env dr = (wounded_check d, { moved_evasively := true }) := by
  simp only [update_drone_state]
  rw [if_pos ⟨rfl, by rw [wounded_check_is_suppressed]; exact hsup⟩]
  rw [if_neg (by rw [wounded_check_suppression_end_time]; exact not_le.mpr hnow)]
  rw [if_pos (by rw [wounded_check_state]; exact hst)]

/-- On the tick where suppression expires, the flag clears and the
`SUPPRESSION_COOLDOWN` cooldown starts; nothing later in the tick can
re-suppress. -/
theorem suppression_expiry_starts_cooldown (d : Drone) (env : Env) (dr : TickDraws)
    (hsup : d.is_suppressed = true) (hnow : env.now ≥ d.suppression_end_time) :
    (update_drone_state d env dr).1.is_suppressed = false ∧
    (update_drone_state d env dr).1.suppression_cooldown_end
      = env.now + SUPPRESSION_COOLDOWN := by
  simp only [update_drone_state]
  rw [if_pos ⟨rfl, by rw [wounded_check_is_suppressed]; exact hsup⟩]
  rw [if_pos (by rw [wounded_check_suppression_end_time]; exact hnow)]
  dsimp only
  constructor
  · rw [state_branch_is_suppressed, distress_check_is_suppressed]
  · rw [state_branch_suppression_cooldown_end, distress_check_suppression_cooldown_end]

/-- During the suppression cooldown `damage_drone` never re-suppresses,
however much damage accumulates. -/
theorem damage_drone_respects_cooldown (d : Drone) (damage : ℚ) (now : ℤ)
    (dr2 : DamageDraws) (hns : d.is_suppressed = false)
    (hcd : now < d.suppression_cooldown_end) :
    ((damage_drone d damage now dr2).1).is_suppressed = false := by
  simp only [damage_drone]
  repeat' split
  all_goals
    first
      | exact hns
      | (rename_i htrig
         exfalso
         have h3 := htrig.2.2
         simp at h3
         omega)

/-- C7: (1) while `is_suppressed` holds unexpired, a state-machine tick
fires no shot, applies no damage to the player, and sets up no burst;
(2) in the engaging/winding_up/attacking states such a tick is replaced by
evasive movement (the drone is returned otherwise untouched beyond the
wounded check); (3) when suppression expires the flag clears and a cooldown
of `SUPPRESSION_COOLDOWN` starts; (4) while that cooldown runs,
`damage_drone` cannot re-suppress the drone, no matter how much damage it
accumulates. -/
theorem C7_suppression_contract :
    (∀ d env dr, d.is_suppressed = true → env.now < d.suppression_end_time →
      (update_drone_state d env dr).2.fired_shot = false ∧
      (update_drone_state d env dr).2.player_damage = 0 ∧
      (update_drone_state d env dr).2.executed_attack = false) ∧
    (∀ d env dr, d.is_suppressed = true → env.now < d.suppression_end_time →
      (d.state = DState.engaging ∨ d.state = DState.winding_up ∨
        d.state = DState.attacking) →
      update_drone_state d env dr = (wounded_check d, { moved_evasively := true })) ∧
    (∀ d env dr, d.is_suppressed = true → env.now ≥ d.suppression_end_time →
      (update_drone_state d env dr).1.is_suppressed = false ∧
      (update_drone_state d env dr).1.suppression_cooldown_end
        = env.now + SUPPRESSION_COOLDOWN) ∧
    (∀ d damage now dr2, d.is_suppressed = false →
      now < d.suppression_cooldown_end →
      ((damage_drone d damage now dr2).1).is_suppressed = false) :=
  ⟨fun d env dr hsup hnow => suppressed_tick_no_fire d env dr hsup hnow,
   fun d env dr hsup hnow hst => suppressed_tick_skips_combat d env dr hsup hnow hst,
   fun d env dr hsup hnow => suppression_expiry_starts_cooldown d env dr hsup hnow,
   fun d damage now dr2 hns hcd => damage_drone_respects_cooldown d damage now dr2 hns hcd⟩

/-- Witness for C7, instantiating all four parts on concrete drones. -/
theorem C7_witness :
    (suppressed_drone.is_suppressed = true ∧
     sample_env.now < suppressed_drone.suppression_end_time ∧
     (update_drone_state suppressed_drone sample_env sample_draws).2.fired_shot = false ∧
     (update_drone_state suppressed_drone sample_env sample_draws).2.player_damage = 0 ∧
     (update_drone_state suppressed_drone sample_env sample_draws).2.executed_attack
       = false) ∧
    ((suppressed_drone.state = DState.engaging ∨
        suppressed_drone.state = DState.winding_up ∨
        suppressed_drone.state = DState.attacking) ∧
     update_drone_state suppressed_drone sample_env sample_draws
       = (wounded_check suppressed_drone, { moved_evasively := true })) ∧
    (expired_suppressed_drone.is_suppressed = true ∧
     sample_env.now ≥ expired_suppressed_drone.suppression_end_time ∧
     (update_drone_state expired_suppressed_drone sample_env sample_draws).1.is_suppressed
       = false ∧
     (update_drone_state expired_suppressed_drone sample_env
         sample_draws).1.suppression_cooldown_end
       = sample_env.now + SUPPRESSION_COOLDOWN) ∧
    (cooldown_drone.is_suppressed = false ∧
     (10000 : ℤ) < cooldown_drone.suppression_cooldown_end ∧
     ((damage_drone cooldown_drone 50 10000 ⟨800⟩).1).is_suppressed = false) :=
  have hnow : sample_env.now < suppressed_drone.suppression_end_time := by decide
  have hexp : sample_env.now ≥ expired_suppressed_drone.suppression_end_time := by decide
  have hcd : (10000 : ℤ) < cooldown_drone.suppression_cooldown_end := by decide
  have hst : suppressed_drone.state = DState.engaging ∨
      suppressed_drone.state = DState.winding_up ∨
      suppressed_drone.state = DState.attacking := Or.inr (Or.inr rfl)
  have h1 := C7_suppression_contract.1 suppressed_drone sample_env sample_draws rfl hnow
  have h2 := C7_suppression_contract.2.1 suppressed_drone sample_env sample_draws
    rfl hnow hst
  have h3 := C7_suppression_contract.2.2.1 expired_suppressed_drone sample_env
    sample_draws rfl hexp
  have h4 := C7_suppression_contract.2.2.2 cooldown_drone 50 10000 ⟨800⟩ rfl hcd
  ⟨⟨rfl, hnow, h1.1, h1.2.1, h1.2.2⟩, ⟨hst, h2⟩, ⟨rfl, hexp, h3.1, h3.2⟩,
   ⟨rfl, hcd, h4⟩⟩

end MechSim
